import Mathlib

/-!
Verification of the gt inline-image scripts.

The repository has two Python scripts:
- src/contrib/load_image.py: a one-shot encoder that base64-encodes a file
  and prints a single iTerm2/GT "File" OSC escape sequence;
- src/contrib/advanced_image_demo.py: a demo driver built around
  display_image (Sequence Builder), clear_screen and move_cursor helpers,
  and four demo phases.

This file shallowly embeds both scripts: file bytes are lists of naturals
below 256, the filesystem is a function from paths to optional contents,
and a process step is modelled by its standard-output text, standard-error
text, and an optional uncaught exception.
-/

namespace GT

/-- File contents: a byte is a natural number below 256. -/
abbrev Bytes := List Nat

/-- A filesystem maps a path to the contents of the regular file there,
or none when no regular file exists at that path. -/
abbrev FS := String → Option Bytes

/-! ### Base64 (Python base64.b64encode / b64decode, RFC 4648) -/

/-- Standard base64 alphabet, in value order, as used by base64.b64encode. -/
def b64Alphabet : List Char :=
  "ABCDEFGHIJKLMNOPQRSTUVWXYZabcdefghijklmnopqrstuvwxyz0123456789+/".toList

/-- Character for a six-bit value. -/
def sextetChar (n : Nat) : Char := b64Alphabet.getD n 'A'

/-- Base64-encode a byte list, three bytes to four characters, padding the
final group with '=' as base64.b64encode does. -/
def b64encode : List Nat → List Char
  | [] => []
  | [a] => [sextetChar (a / 4), sextetChar (a % 4 * 16), '=', '=']
  | [a, b] => [sextetChar (a / 4), sextetChar (a % 4 * 16 + b / 16),
               sextetChar (b % 16 * 4), '=']
  | a :: b :: c :: rest =>
      sextetChar (a / 4) :: sextetChar (a % 4 * 16 + b / 16) ::
      sextetChar (b % 16 * 4 + c / 64) :: sextetChar (c % 64) :: b64encode rest

/-- True for every character that is not the '=' padding. -/
def noPad (c : Char) : Bool := c != '='

/-- Six-bit value of an alphabet character. -/
def sextetVal (c : Char) : Nat := b64Alphabet.indexOf c

/-- Rebuild bytes from six-bit values, the padding already stripped:
four sextets give three bytes, three give two, two give one. -/
def b64decodeSextets : List Nat → List Nat
  | s1 :: s2 :: s3 :: s4 :: rest =>
      (s1 * 4 + s2 / 16) :: (s2 % 16 * 16 + s3 / 4) :: (s3 % 4 * 64 + s4) ::
      b64decodeSextets rest
  | [s1, s2, s3] => [s1 * 4 + s2 / 16, s2 % 16 * 16 + s3 / 4]
  | [s1, s2] => [s1 * 4 + s2 / 16]
  | _ => []

/-- Base64-decode: drop padding, map characters to six-bit values, regroup. -/
def b64decode (s : List Char) : List Nat :=
  b64decodeSextets ((s.filter noPad).map sextetVal)

/-! ### Process-output model

A Python code fragment is modelled by the text it writes to standard
output, the text it writes to standard error, and the uncaught exception
it raises, if any (none means it returns normally). -/

/-- Result of running a fragment of one of the scripts. -/
structure PRes where
  out : String
  err : String
  exn : Option String
deriving DecidableEq

/-- Sequential composition: if the first fragment raises, the second never
runs; otherwise outputs concatenate and the second fragment's exception
status is kept. -/
def PRes.seq (a b : PRes) : PRes :=
  match a.exn with
  | some _ => a
  | none => ⟨a.out ++ b.out, a.err ++ b.err, b.exn⟩

/-- A fragment that does nothing (also models time.sleep). -/
def pnil : PRes := ⟨"", "", none⟩

/-- Python print to standard output: the text plus a newline. -/
def pr (s : String) : PRes := ⟨s ++ "\n", "", none⟩

/-- Python sys.stdout.write followed by flush: the exact text, no newline. -/
def wr (s : String) : PRes := ⟨s, "", none⟩

/-- Python print with file equal to sys.stderr. -/
def prErr (s : String) : PRes := ⟨"", s ++ "\n", none⟩

/-- Python input(): a blocking read of one line of user input, assumed
available (interactive run); writes nothing. -/
def inputLine : PRes := pnil

/-- Run a list of fragments in order. -/
def pall (l : List PRes) : PRes := l.foldr PRes.seq pnil

/-! ### Sequence Builder and cursor helpers (advanced_image_demo.py) -/

/-- Option tokens of display_image: the implicit inline=1 first, then each
caller-supplied pair rendered key=value in insertion order. -/
def displayTokens (options : List (String × String)) : List String :=
  "inline=1" :: options.map (fun kv => kv.1 ++ "=" ++ kv.2)

/-- The full OSC escape sequence written by display_image. -/
def imageEscape (data : Bytes) (options : List (String × String)) : String :=
  "\x1b]1337;File=" ++ String.intercalate ";" (displayTokens options) ++ ":" ++
    String.mk (b64encode data) ++ "\x07"

/-- Model of os.path.isfile under the fixed filesystem. -/
def pyIsFile (fs : FS) (path : String) : Bool := (fs path).isSome

/-- Model of display_image: when the path is not a regular file, print an
error line to standard error and return; otherwise open and read the file
(open would raise FileNotFoundError, but the isfile guard and the fixed
filesystem make that branch unreachable), base64-encode it, and write the
escape sequence to standard output. -/
def display_image (fs : FS) (path : String) (options : List (String × String)) :
    PRes :=
  if pyIsFile fs path = false then
    prErr ("Error: Image file not found: " ++ path)
  else
    match fs path with
    | some data => wr (imageEscape data options)
    | none => ⟨"", "FileNotFoundError\n", some "FileNotFoundError"⟩

/-- Escape text written by clear_screen. -/
def clearScreenText : String := "\x1b[2J\x1b[H"

/-- Model of clear_screen: one write of the clear-and-home escape. -/
def clear_screen : PRes := wr clearScreenText

/-- Escape text written by move_cursor for a row and column. -/
def moveCursorText (row col : Int) : String :=
  "\x1b[" ++ toString row ++ ";" ++ toString col ++ "H"

/-- Model of move_cursor: one write of the positioning escape. -/
def move_cursor (row col : Int) : PRes := wr (moveCursorText row col)

/-! ### One-shot encoder script (load_image.py) -/

/-- Usage text printed when the image-path argument is missing. -/
def loadImageUsage : String := "Usage: python im.py <image_path>"

/-- Model of the whole load_image.py script run on an argument vector
(argv includes the program name at index 0, as sys.argv does) against a
filesystem. Result: process output paired with the exit code. An uncaught
FileNotFoundError from open aborts the process with exit code 1 and a
traceback naming the exception on standard error (modelled by its name). -/
def runLoadImage (fs : FS) (argv : List String) : PRes × Nat :=
  if argv.length < 2 then
    (pr loadImageUsage, 1)
  else
    match fs (argv.getD 1 "") with
    | none => (⟨"", "FileNotFoundError\n", some "FileNotFoundError"⟩, 1)
    | some data =>
        (pr ("\x1b]1337;File=inline=1:" ++ String.mk (b64encode data) ++ "\x07"), 0)

/-! ### Demo Driver (advanced_image_demo.py main and demo phases) -/

/-- View of the image directory given to the driver: whether the path is a
directory, the *.jpg and *.png glob results (each in glob order), and the
contents of regular files under the fixed filesystem. -/
structure DirFS where
  name : String
  isDir : Bool
  jpgs : List String
  pngs : List String
  fileData : FS

/-- First *.jpg match, else first *.png match, as the
next(dir.glob, None) or next(dir.glob, None) idiom computes it. -/
def sampleImg (d : DirFS) : Option String := d.jpgs.head? <|> d.pngs.head?

/-- A run of n newline characters (the "\n" times n idiom). -/
def nl (n : Nat) : String := String.mk (List.replicate n '\n')

/-- A banner of n equals-sign characters, as printed under each title. -/
def eqRow (n : Nat) : String := String.mk (List.replicate n '=')

/-- Model of demo_basic. -/
def demo_basic (d : DirFS) : PRes :=
  pall [clear_screen,
    pr "GT Terminal Advanced Image Demo - Basic Display",
    pr (eqRow 46),
    pr "",
    match sampleImg d with
    | none => pr "No sample images found in the directory."
    | some img => pall [
        pr "1. Default size (auto):",
        display_image d.fileData img [],
        pr (nl 8),
        pr "2. Fixed width (400px):",
        display_image d.fileData img [("width", "400px")],
        pr (nl 8),
        pr "3. Fixed height (200px):",
        display_image d.fileData img [("height", "200px")],
        pr (nl 8),
        pr "4. Percentage width (50%):",
        display_image d.fileData img [("width", "50%")],
        pr (nl 8),
        pr "Press Enter to continue...",
        inputLine]]

/-- Model of demo_alignment. -/
def demo_alignment (d : DirFS) : PRes :=
  pall [clear_screen,
    pr "GT Terminal Advanced Image Demo - Alignment",
    pr (eqRow 41),
    pr "",
    match sampleImg d with
    | none => pr "No sample images found in the directory."
    | some img => pall [
        pr "1. Left alignment (default):",
        display_image d.fileData img [("width", "200px"), ("align", "left")],
        pr (nl 5),
        pr "2. Center alignment:",
        display_image d.fileData img [("width", "200px"), ("align", "center")],
        pr (nl 5),
        pr "3. Right alignment:",
        display_image d.fileData img [("width", "200px"), ("align", "right")],
        pr (nl 5),
        pr "Press Enter to continue...",
        inputLine]]

/-- Model of demo_z_index. -/
def demo_z_index (d : DirFS) : PRes :=
  pall [clear_screen,
    pr "GT Terminal Advanced Image Demo - Z-index Layering",
    pr (eqRow 48),
    pr "",
    (let images := d.jpgs ++ d.pngs
     if images.length < 2 then
       pr "Need at least 2 images for the z-index demo."
     else
       pall [
         pr "Displaying overlapping images with different z-index values:",
         pr "(Notice how they stack on top of each other)",
         pr "",
         move_cursor 6 5,
         display_image d.fileData (images.getD 0 "")
           [("width", "40%"), ("z-index", "1"), ("name", "back_image")],
         move_cursor 8 15,
         display_image d.fileData (images.getD 1 "")
           [("width", "40%"), ("z-index", "2"), ("name", "front_image")],
         move_cursor 15 1,
         pr "Second image (z-index=2) appears on top of the first image (z-index=1)",
         pr "",
         pr "Press Enter to continue...",
         inputLine])]

/-- Options of the persistent background image in demo_animation. -/
def animBgOpts : List (String × String) :=
  [("width", "80%"), ("height", "80%"), ("align", "center"),
   ("z-index", "1"), ("name", "background"), ("persistent", "1")]

/-- Options of each animated overlay frame in demo_animation. -/
def animFrameOpts : List (String × String) :=
  [("width", "100px"), ("height", "100px"), ("z-index", "2"),
   ("name", "animation_frame")]

/-- Bouncing row of animation iteration i: 7 + abs(i mod 20 - 10). -/
def animRow (i : Nat) : Nat := 7 + (((i : Int) % 20) - 10).natAbs

/-- Column of animation iteration i: 10 + i mod 40. -/
def animCol (i : Nat) : Nat := 10 + i % 40

/-- One animation iteration: position the cursor from the iteration index
alone, then display the overlay frame (the trailing sleep writes nothing). -/
def animStep (fs : FS) (img : String) (i : Nat) : PRes :=
  (move_cursor (animRow i) (animCol i)).seq (display_image fs img animFrameOpts)

/-- The animation for-loop, started at iteration i with n iterations left. -/
def animLoop (fs : FS) (img : String) : Nat → Nat → PRes
  | _, 0 => pnil
  | i, Nat.succ n => (animStep fs img i).seq (animLoop fs img (i + 1) n)

/-- Iterations the loop completes: all 100, unless a user interrupt arrives
after k completed iterations with k below 100. The interrupt parameter is
the number of completed iterations before KeyboardInterrupt is raised
(interrupts are delivered during the per-frame sleep); none means no
interrupt arrives. -/
def animIters (intr : Option Nat) : Nat :=
  match intr with
  | none => 100
  | some k => min k 100

/-- Whether the KeyboardInterrupt handler runs (an interrupt arrived before
the loop finished its 100 iterations). -/
def animInterrupted (intr : Option Nat) : Bool :=
  match intr with
  | none => false
  | some k => k < 100

/-- Model of demo_animation: header, background image, bounded bouncing
loop inside try, the stopped message when KeyboardInterrupt is caught, and
the trailing prompt. When no sample image exists the function returns
before the try block. -/
def demo_animation (d : DirFS) (intr : Option Nat) : PRes :=
  pall [clear_screen,
    pr "GT Terminal Advanced Image Demo - Animation",
    pr (eqRow 41),
    pr "Press Ctrl+C to stop the animation",
    pr "",
    match sampleImg d with
    | none => pr "No sample images found in the directory."
    | some img => pall [
        move_cursor 5 1,
        display_image d.fileData img animBgOpts,
        animLoop d.fileData img 0 (animIters intr),
        (if animInterrupted intr then pr "\nAnimation stopped." else pnil),
        move_cursor 25 1,
        pr "Press Enter to continue...",
        inputLine]]

/-- The statements inside main's try block: the four phases then the
closing banner. -/
def mainBody (d : DirFS) (intr : Option Nat) : PRes :=
  pall [demo_basic d, demo_alignment d, demo_z_index d,
    demo_animation d intr,
    clear_screen,
    pr "GT Terminal Advanced Image Demo - Complete",
    pr (eqRow 40),
    pr "Thank you for trying the advanced image features!"]

/-- The Found-n-images line printed between validation and the try block. -/
def foundLine (d : DirFS) : PRes :=
  pr ("Found " ++ toString (d.jpgs ++ d.pngs).length ++ " images in " ++ d.name)

/-- Model of main: validate the directory, count *.jpg plus *.png matches,
then run the four phases and the closing banner inside try, mapping any
caught exception to a stderr line and exit code 1. A KeyboardInterrupt
can only be injected inside demo_animation's own try, which catches it. -/
def runMain (d : DirFS) (intr : Option Nat) : PRes × Nat :=
  if d.isDir = false then
    (prErr ("Error: Image directory not found: " ++ d.name), 1)
  else if (d.jpgs ++ d.pngs).length = 0 then
    (prErr ("Error: No JPG or PNG images found in " ++ d.name), 1)
  else
    match (mainBody d intr).exn with
    | some e =>
        (⟨(foundLine d).out ++ (mainBody d intr).out,
          (foundLine d).err ++ (mainBody d intr).err ++ "Demo error: " ++ e ++ "\n",
          none⟩, 1)
    | none => ((foundLine d).seq (mainBody d intr), 0)

/-! ### Concrete inputs used in closed statements -/

/-- Filesystem with a single 10-byte image holding bytes 0 through 9. -/
def fsTen : FS := fun p => if p = "img.png" then some [0, 1, 2, 3, 4, 5, 6, 7, 8, 9] else none

/-- Filesystem with no regular files. -/
def fsEmpty : FS := fun _ => none

/-- Directory view that exists but has no *.jpg or *.png matches. -/
def emptyDir : DirFS := ⟨"imgs", true, [], [], fsEmpty⟩

/-- Directory view with one listed image whose file has since vanished
from the filesystem (every open sees no regular file). -/
def staleDir : DirFS := ⟨"imgs", true, ["img.jpg"], [], fsEmpty⟩

end GT

namespace GT

theorem sextetChar_ne_pad (n : Nat) : sextetChar n ≠ '=' := by
  unfold sextetChar
  by_cases h : n < b64Alphabet.length
  · have hmem : b64Alphabet.getD n 'A' ∈ b64Alphabet := by
      rw [List.getD_eq_getElem b64Alphabet 'A' h]
      exact List.getElem_mem h
    intro hc
    rw [hc] at hmem
    revert hmem
    decide
  · rw [List.getD_eq_default b64Alphabet 'A' (Nat.le_of_not_lt h)]
    decide

theorem noPad_sextetChar (n : Nat) : noPad (sextetChar n) = true := by
  have h := sextetChar_ne_pad n
  simp [noPad, h]

theorem sextetVal_sextetChar : ∀ n, n < 64 → sextetVal (sextetChar n) = n := by
  decide

/-- Decoding inverts encoding, byte list by byte list. -/
theorem b64decode_b64encode : ∀ l : List Nat, (∀ b ∈ l, b < 256) →
    b64decode (b64encode l) = l
  | [], _ => rfl
  | [a], h => by
    have ha : a < 256 := h a (by simp)
    simp only [b64encode, b64decode, List.filter,
      noPad_sextetChar, List.map]
    rw [sextetVal_sextetChar (a / 4) (by omega),
        sextetVal_sextetChar (a % 4 * 16) (by omega)]
    simp only [b64decodeSextets, List.cons.injEq, and_true]
    omega
  | [a, b], h => by
    have ha : a < 256 := h a (by simp)
    have hb : b < 256 := h b (by simp)
    simp only [b64encode, b64decode, List.filter,
      noPad_sextetChar, List.map]
    rw [sextetVal_sextetChar (a / 4) (by omega),
        sextetVal_sextetChar (a % 4 * 16 + b / 16) (by omega),
        sextetVal_sextetChar (b % 16 * 4) (by omega)]
    simp only [b64decodeSextets, List.cons.injEq, and_true]
    omega
  | a :: b :: c :: rest, h => by
    have ha : a < 256 := h a (by simp)
    have hb : b < 256 := h b (by simp)
    have hc : c < 256 := h c (by simp)
    have ih := b64decode_b64encode rest (fun x hx => h x (by simp [hx]))
    simp only [b64encode, b64decode, List.filter,
      noPad_sextetChar, List.map] at ih ⊢
    rw [sextetVal_sextetChar (a / 4) (by omega),
        sextetVal_sextetChar (a % 4 * 16 + b / 16) (by omega),
        sextetVal_sextetChar (b % 16 * 4 + c / 64) (by omega),
        sextetVal_sextetChar (c % 64) (by omega)]
    simp only [b64decodeSextets, List.cons.injEq]
    refine ⟨by omega, by omega, by omega, ih⟩

/-! ### Helper lemmas about the process model -/

@[simp] theorem exn_pnil : pnil.exn = none := rfl

@[simp] theorem exn_pr (s : String) : (pr s).exn = none := rfl

@[simp] theorem exn_wr (s : String) : (wr s).exn = none := rfl

@[simp] theorem exn_prErr (s : String) : (prErr s).exn = none := rfl

@[simp] theorem exn_inputLine : inputLine.exn = none := rfl

@[simp] theorem exn_clear_screen : clear_screen.exn = none := rfl

@[simp] theorem exn_move_cursor (r c : Int) : (move_cursor r c).exn = none := rfl

@[simp] theorem exn_display_image (fs : FS) (p : String)
    (o : List (String × String)) : (display_image fs p o).exn = none := by
  unfold display_image
  cases h : fs p <;> simp [pyIsFile, h, prErr, wr]

theorem seq_exn_none {a : PRes} (b : PRes) (ha : a.exn = none) :
    (a.seq b).exn = b.exn := by
  simp [PRes.seq, ha]

theorem seq_out_none {a : PRes} (b : PRes) (ha : a.exn = none) :
    (a.seq b).out = a.out ++ b.out := by
  simp [PRes.seq, ha]

theorem seq_err_none {a : PRes} (b : PRes) (ha : a.exn = none) :
    (a.seq b).err = a.err ++ b.err := by
  simp [PRes.seq, ha]

@[simp] theorem pall_nil : pall [] = pnil := rfl

@[simp] theorem pall_cons (a : PRes) (t : List PRes) :
    pall (a :: t) = a.seq (pall t) := rfl

@[simp] theorem exn_if_stop (b : Bool) (s : String) :
    (if b then pr s else pnil).exn = none := by
  cases b <;> rfl

@[simp] theorem exn_animLoop (fs : FS) (img : String) :
    ∀ n i, (animLoop fs img i n).exn = none
  | 0, _ => rfl
  | Nat.succ n, i => by
    rw [animLoop, seq_exn_none _ (by simp [animStep, seq_exn_none])]
    exact exn_animLoop fs img n i.succ

theorem animLoop_out (fs : FS) (img : String) :
    ∀ n i, (animLoop fs img i n).out =
      ((List.range n).map (fun j => (animStep fs img (i + j)).out)).foldr
        (fun a b => a ++ b) ""
  | 0, _ => rfl
  | Nat.succ n, i => by
    rw [animLoop, seq_out_none _ (by simp [animStep, seq_exn_none]),
      List.range_succ_eq_map, List.map_cons, List.map_map, List.foldr_cons]
    have hmap : (List.range n).map ((fun j => (animStep fs img (i + j)).out) ∘
        Nat.succ) = (List.range n).map (fun j => (animStep fs img (i + 1 + j)).out) := by
      refine List.map_congr_left (fun j _ => ?_)
      have : i + Nat.succ j = i + 1 + j := by omega
      simp [Function.comp, this]
    rw [hmap, ← animLoop_out fs img n (i + 1)]
    simp

/-! ### Token-shape lemmas for the option list -/

/-- The only key=value rendering equal to the token width=400px is the pair
with key width and value 400px: the token has a single equals sign, so the
separator position is forced. -/
theorem eq_width_token (k v : String) (h : k ++ "=" ++ v = "width=400px") :
    k = "width" ∧ v = "400px" := by
  have hd : k.data ++ ('=' :: v.data) = "width=400px".data := by
    have h2 := congrArg String.data h
    rw [String.data_append, String.data_append] at h2
    simpa using h2
  have htake : ("width=400px".data).take k.data.length = k.data := by
    rw [← hd]; exact List.take_left k.data ('=' :: v.data)
  have hdrop : ("width=400px".data).drop k.data.length = '=' :: v.data := by
    rw [← hd]; exact List.drop_left k.data ('=' :: v.data)
  have hlen : k.data.length + (1 + v.data.length) = 11 := by
    have h3 := congrArg List.length hd
    simpa [Nat.add_comm, Nat.add_assoc, Nat.add_left_comm] using h3
  have hpos : ∀ n, n ≤ 10 → (("width=400px".data.drop n).head? = some '=') →
      n = 5 := by decide
  have h5 : k.data.length = 5 := by
    refine hpos k.data.length (by omega) ?_
    rw [hdrop]; rfl
  rw [h5] at htake hdrop
  constructor
  · refine String.ext ?_
    rw [← htake]; decide
  · refine String.ext ?_
    have : ('=' :: v.data) = '=' :: "400px".data := by
      rw [← hdrop]; decide
    exact (List.cons.injEq _ _ _ _ ▸ this).2

/-- In the token list of a mapping (no duplicate keys) containing the
width entry with value 400px, the token width=400px occurs exactly once. -/
theorem tokens_count_width (l : List (String × String))
    (hnd : (l.map Prod.fst).Nodup) (hm : ("width", "400px") ∈ l) :
    ((l.map (fun kv => kv.1 ++ "=" ++ kv.2)).count "width=400px") = 1 := by
  induction l with
  | nil => cases hm
  | cons hd tl ih =>
    rw [List.map_cons, List.count_cons]
    rw [List.map_cons, List.nodup_cons] at hnd
    rcases List.mem_cons.mp hm with heq | hmem
    · subst heq
      have hzero : (tl.map (fun kv => kv.1 ++ "=" ++ kv.2)).count
          "width=400px" = 0 := by
        rw [List.count_eq_zero]
        intro hcontra
        obtain ⟨kv, hkv, hfkv⟩ := List.mem_map.mp hcontra
        obtain ⟨h1, _⟩ := eq_width_token kv.1 kv.2 hfkv
        have hin : kv.1 ∈ tl.map Prod.fst := List.mem_map_of_mem Prod.fst hkv
        rw [h1] at hin
        exact hnd.1 hin
      simp [hzero]
    · have hne : ¬ (hd.1 ++ "=" ++ hd.2 = "width=400px") := by
        intro hcontra
        obtain ⟨h1, _⟩ := eq_width_token hd.1 hd.2 hcontra
        have hin : ("width" : String) ∈ tl.map Prod.fst :=
          List.mem_map_of_mem Prod.fst hmem
        apply hnd.1
        rw [h1]
        exact hin
      have hbeq : ((hd.1 ++ "=" ++ hd.2) == "width=400px") = false := by
        simpa using hne
      rw [hbeq]
      simpa using ih hnd.2 hmem

/-! ### No demo phase raises under a fixed filesystem -/

theorem demo_basic_exn (d : DirFS) : (demo_basic d).exn = none := by
  unfold demo_basic
  cases h : sampleImg d <;> simp [h, seq_exn_none]

theorem demo_alignment_exn (d : DirFS) : (demo_alignment d).exn = none := by
  unfold demo_alignment
  cases h : sampleImg d <;> simp [h, seq_exn_none]

theorem demo_z_index_exn (d : DirFS) : (demo_z_index d).exn = none := by
  unfold demo_z_index
  simp only [pall_cons, pall_nil]
  split_ifs <;> simp [seq_exn_none]

theorem demo_animation_exn (d : DirFS) (intr : Option Nat) :
    (demo_animation d intr).exn = none := by
  unfold demo_animation
  cases h : sampleImg d <;> simp [h, seq_exn_none]

theorem mainBody_exn (d : DirFS) (intr : Option Nat) :
    (mainBody d intr).exn = none := by
  unfold mainBody
  simp [seq_exn_none, demo_basic_exn, demo_alignment_exn, demo_z_index_exn,
    demo_animation_exn]

theorem runMain_exit_zero (d : DirFS) (intr : Option Nat)
    (h1 : d.isDir = true) (h2 : (d.jpgs ++ d.pngs).length ≠ 0) :
    (runMain d intr).2 = 0 := by
  unfold runMain
  rw [mainBody_exn d intr, if_neg (by simp [h1]), if_neg h2]

/-! ### Claim theorems -/

/-- Claim C1, counterexample: on a 10-byte file holding bytes 0x00 through
0x09, the one-shot script's standard output is not the claimed byte
sequence ESC]1337;File=inline=1:AAECAwQFBgcI BEL — base64 of those ten
bytes is AAECAwQFBgcICQ== and print appends a newline. -/
theorem one_shot_output_refuted :
    (runLoadImage fsTen ["im.py", "img.png"]).1.out ≠
      "\x1b]1337;File=inline=1:AAECAwQFBgcI\x07" := by
  decide

/-- Claim C1, amended: on a 10-byte file holding bytes 0x00 through 0x09,
the one-shot script's complete standard output is
ESC]1337;File=inline=1:AAECAwQFBgcICQ== BEL followed by one trailing
newline from print, nothing on standard error, and exit code 0. -/
theorem one_shot_output_exact :
    (runLoadImage fsTen ["im.py", "img.png"]).1.out =
      "\x1b]1337;File=inline=1:AAECAwQFBgcICQ==\x07\n"
    ∧ (runLoadImage fsTen ["im.py", "img.png"]).1.err = ""
    ∧ (runLoadImage fsTen ["im.py", "img.png"]).2 = 0 := by
  refine ⟨by decide, rfl, rfl⟩

/-- Claim C3: decoding the base64 string the Encoder produces for a
non-empty byte sequence yields that byte sequence back. -/
theorem base64_roundtrip (B : Bytes) (hbytes : ∀ b ∈ B, b < 256)
    (_hne : B ≠ []) : b64decode (b64encode B) = B :=
  b64decode_b64encode B hbytes

/-- Witness for claim C3 at the concrete byte sequence 7, 200, 255. -/
theorem base64_roundtrip_witness :
    b64decode (b64encode [7, 200, 255]) = [7, 200, 255] :=
  base64_roundtrip [7, 200, 255] (by decide) (by decide)

/-- Claim C4: clear_screen writes exactly ESC[2J ESC[H, and move_cursor
writes exactly ESC[row;colH for every integer row and column, in
particular ESC[6;5H for row 6, column 5; neither writes anything else or
raises. -/
theorem cursor_helpers_exact (row col : Int) :
    clear_screen = ⟨"\x1b[2J\x1b[H", "", none⟩
    ∧ move_cursor row col =
        ⟨"\x1b[" ++ toString row ++ ";" ++ toString col ++ "H", "", none⟩
    ∧ (move_cursor 6 5).out = "\x1b[6;5H" := by
  refine ⟨rfl, rfl, by decide⟩

/-- Claim C7, counterexample: invoked without the image-path argument, the
one-shot script exits with code 1 and prints the usage message, but the
message goes to standard output: standard error stays empty, refuting the
claim that the message is written to standard error. -/
theorem usage_to_stderr_refuted :
    (runLoadImage fsEmpty ["im.py"]).2 = 1
    ∧ (runLoadImage fsEmpty ["im.py"]).1.out = "Usage: python im.py <image_path>\n"
    ∧ (runLoadImage fsEmpty ["im.py"]).1.err = "" := by
  refine ⟨rfl, rfl, rfl⟩

/-- Claim C7, amended: with the positional argument omitted the one-shot
script exits with code 1 and writes the usage message to standard output
(not standard error), raising nothing. -/
theorem usage_to_stdout (fs : FS) (argv : List String)
    (h : argv.length < 2) :
    runLoadImage fs argv =
      (⟨"Usage: python im.py <image_path>\n", "", none⟩, 1) := by
  simp [runLoadImage, h, pr, loadImageUsage]

/-- Witness for the amended claim C7 at an argument vector holding only
the program name. -/
theorem usage_to_stdout_witness :
    runLoadImage fsEmpty ["im.py"] =
      (⟨"Usage: python im.py <image_path>\n", "", none⟩, 1) :=
  usage_to_stdout fsEmpty ["im.py"] (by decide)

/-- Claim C2: display_image emits ESC]1337;File=options:payload BEL with
the options joined by semicolons in insertion order behind the implicit
inline=1, which is always the first token; and in any mapping supplying
the width entry with value 400px the token width=400px appears exactly
once, immediately at the position it was supplied (one past its index,
behind inline=1). -/
theorem display_options_order (fs : FS) (path : String) (data : Bytes)
    (opts wopts : List (String × String)) (i : Nat)
    (hfs : fs path = some data)
    (hkeys : (wopts.map Prod.fst).Nodup)
    (hw : wopts[i]? = some ("width", "400px")) :
    (display_image fs path opts).out =
      "\x1b]1337;File=" ++ String.intercalate ";" (displayTokens opts) ++ ":" ++
        String.mk (b64encode data) ++ "\x07"
    ∧ (displayTokens opts)[0]? = some "inline=1"
    ∧ (displayTokens wopts)[i + 1]? = some "width=400px"
    ∧ (displayTokens wopts).count "width=400px" = 1 := by
  refine ⟨?_, by simp [displayTokens], ?_, ?_⟩
  · simp [display_image, pyIsFile, hfs, wr, imageEscape]
  · simp [displayTokens, List.getElem?_map, hw]
  · have hmem : ("width", "400px") ∈ wopts := List.getElem?_mem hw
    unfold displayTokens
    rw [List.count_cons, tokens_count_width wopts hkeys hmem]
    simp

/-- Witness for claim C2 with empty options for the form part and the
one-entry mapping width to 400px for the occurrence part. -/
theorem display_options_order_witness :
    (display_image fsTen "img.png" []).out =
      "\x1b]1337;File=" ++ String.intercalate ";" (displayTokens []) ++ ":" ++
        String.mk (b64encode [0, 1, 2, 3, 4, 5, 6, 7, 8, 9]) ++ "\x07"
    ∧ (displayTokens [])[0]? = some "inline=1"
    ∧ (displayTokens [("width", "400px")])[0 + 1]? = some "width=400px"
    ∧ (displayTokens [("width", "400px")]).count "width=400px" = 1 :=
  display_options_order fsTen "img.png" [0, 1, 2, 3, 4, 5, 6, 7, 8, 9]
    [] [("width", "400px")] 0 (by decide) (by decide) (by decide)

/-- Claim C5: when the caller's mapping itself contains an inline entry,
display_image still emits the implicit inline=1 first, additionally emits
the caller's inline token at its supplied position, and deduplicates
nothing: the token list is one longer than the mapping. -/
theorem inline_not_deduplicated (opts : List (String × String)) (v : String)
    (i : Nat) (h : opts[i]? = some ("inline", v)) :
    (displayTokens opts)[0]? = some "inline=1"
    ∧ (displayTokens opts)[i + 1]? = some ("inline=" ++ v)
    ∧ (displayTokens opts).length = opts.length + 1 := by
  refine ⟨by simp [displayTokens], ?_, by simp [displayTokens]⟩
  simp [displayTokens, List.getElem?_map, h]

/-- Witness for claim C5 at the one-entry mapping inline to 0. -/
theorem inline_not_deduplicated_witness :
    (displayTokens [("inline", "0")])[0]? = some "inline=1"
    ∧ (displayTokens [("inline", "0")])[0 + 1]? = some ("inline=" ++ "0")
    ∧ (displayTokens [("inline", "0")]).length =
        ([("inline", "0")] : List (String × String)).length + 1 :=
  inline_not_deduplicated [("inline", "0")] "0" 0 (by decide)

/-- Claim C6: on a path with no regular file, display_image reports the
file-not-found error on standard error and writes nothing to standard
output, and the one-shot script's open raises FileNotFoundError, aborting
with exit code 1 and nothing written to standard output. -/
theorem encoder_missing_file (fs : FS) (path : String)
    (opts : List (String × String)) (argv : List String)
    (h1 : fs path = none) (h2 : argv[1]? = some path) :
    display_image fs path opts =
      ⟨"", "Error: Image file not found: " ++ path ++ "\n", none⟩
    ∧ (runLoadImage fs argv).1.out = ""
    ∧ (runLoadImage fs argv).1.exn = some "FileNotFoundError"
    ∧ (runLoadImage fs argv).2 = 1 := by
  have hlen : ¬ (argv.length < 2) := by
    intro hl
    rw [List.getElem?_eq_none (by omega)] at h2
    cases h2
  refine ⟨?_, ?_, ?_, ?_⟩ <;>
    simp [display_image, pyIsFile, h1, prErr, runLoadImage, hlen, h2]

/-- Witness for claim C6 at an empty filesystem and a concrete path. -/
theorem encoder_missing_file_witness :
    display_image fsEmpty "missing.png" [] =
      ⟨"", "Error: Image file not found: " ++ "missing.png" ++ "\n", none⟩
    ∧ (runLoadImage fsEmpty ["im.py", "missing.png"]).1.out = ""
    ∧ (runLoadImage fsEmpty ["im.py", "missing.png"]).1.exn =
        some "FileNotFoundError"
    ∧ (runLoadImage fsEmpty ["im.py", "missing.png"]).2 = 1 :=
  encoder_missing_file fsEmpty "missing.png" [] ["im.py", "missing.png"]
    rfl (by decide)

/-- Claim C8: an existing directory with zero *.jpg or *.png matches makes
main exit with code 1 and the error line on standard error, with nothing
written to standard output, so no escape sequence is emitted. -/
theorem driver_no_images (d : DirFS) (intr : Option Nat)
    (h1 : d.isDir = true) (h2 : (d.jpgs ++ d.pngs).length = 0) :
    runMain d intr =
      (⟨"", "Error: No JPG or PNG images found in " ++ d.name ++ "\n", none⟩, 1) := by
  unfold runMain
  rw [if_neg (by simp [h1]), if_pos h2]
  rfl

/-- Witness for claim C8 at a directory view with no image files. -/
theorem driver_no_images_witness :
    runMain emptyDir none =
      (⟨"", "Error: No JPG or PNG images found in " ++ emptyDir.name ++ "\n",
        none⟩, 1) :=
  driver_no_images emptyDir none rfl rfl

/-- One animation iteration writes the cursor move computed from the
iteration index alone, then the frame's escape sequence. -/
theorem animStep_out (fs : FS) (img : String) (i : Nat) :
    (animStep fs img i).out =
      moveCursorText (animRow i) (animCol i) ++
        (display_image fs img animFrameOpts).out := by
  rw [animStep, seq_out_none _ (by simp)]
  rfl

/-- Claim C9: the animation loop runs at most 100 iterations, its output
is the concatenation over the iteration indices of the frame determined by
the index alone (cursor row 7 plus the bounce of i mod 20, column 10 plus
i mod 40), and an interrupt after k of the 100 iterations ends the loop
early, prints the stopped message, and lets the phase finish normally with
its trailing prompt. -/
theorem animation_bounded_deterministic (d : DirFS) (intr : Option Nat)
    (img : String) (k : Nat)
    (h1 : sampleImg d = some img) (h2 : k < 100) :
    animIters intr ≤ 100
    ∧ (animLoop d.fileData img 0 (animIters intr)).out =
        ((List.range (animIters intr)).map (fun i =>
          moveCursorText (animRow i) (animCol i) ++
            (display_image d.fileData img animFrameOpts).out)).foldr
          (fun a b => a ++ b) ""
    ∧ (demo_animation d (some k)).exn = none
    ∧ (demo_animation d (some k)).out =
        clearScreenText ++
        ("GT Terminal Advanced Image Demo - Animation\n" ++
        (eqRow 41 ++ ("\n" ++
        ("Press Ctrl+C to stop the animation\n" ++
        ("\n" ++
        (moveCursorText 5 1 ++
        ((display_image d.fileData img animBgOpts).out ++
        ((animLoop d.fileData img 0 k).out ++
        ("\nAnimation stopped.\n" ++
        (moveCursorText 25 1 ++
        "Press Enter to continue...\n")))))))))) := by
  have hbound : animIters intr ≤ 100 := by
    cases intr with
    | none => exact Nat.le_refl 100
    | some k2 => exact Nat.min_le_right k2 100
  have hiter : animIters (some k) = k := by
    simp [animIters]
    omega
  have hint : animInterrupted (some k) = true := by
    simp [animInterrupted]
    omega
  refine ⟨hbound, ?_, demo_animation_exn d (some k), ?_⟩
  · rw [animLoop_out]
    congr 1
    refine List.map_congr_left fun j _ => ?_
    rw [Nat.zero_add, animStep_out]
  · unfold demo_animation
    rw [h1]
    rw [hiter, hint]
    simp [seq_out_none, seq_exn_none, pr, wr, pnil, inputLine, clear_screen,
      move_cursor, String.append_assoc]

/-- Witness for claim C9 at the stale one-image directory, interrupt after
three completed iterations. -/
theorem animation_bounded_deterministic_witness :
    animIters (some 3) ≤ 100
    ∧ (animLoop staleDir.fileData "img.jpg" 0 (animIters (some 3))).out =
        ((List.range (animIters (some 3))).map (fun i =>
          moveCursorText (animRow i) (animCol i) ++
            (display_image staleDir.fileData "img.jpg" animFrameOpts).out)).foldr
          (fun a b => a ++ b) ""
    ∧ (demo_animation staleDir (some 3)).exn = none
    ∧ (demo_animation staleDir (some 3)).out =
        clearScreenText ++
        ("GT Terminal Advanced Image Demo - Animation\n" ++
        (eqRow 41 ++ ("\n" ++
        ("Press Ctrl+C to stop the animation\n" ++
        ("\n" ++
        (moveCursorText 5 1 ++
        ((display_image staleDir.fileData "img.jpg" animBgOpts).out ++
        ((animLoop staleDir.fileData "img.jpg" 0 3).out ++
        ("\nAnimation stopped.\n" ++
        (moveCursorText 25 1 ++
        "Press Enter to continue...\n")))))))))) :=
  animation_bounded_deterministic staleDir (some 3) "img.jpg" 3
    (by decide) (by decide)

/-- Claim C10: display_image on a missing image returns normally with only
an error line on standard error and nothing on standard output; a display
that follows it still emits its full escape sequence; and main still exits
with code 0 whenever directory validation passes, even when every file
open during the phases finds the image gone. -/
theorem missing_image_not_fatal (fs : FS) (path p2 : String) (data : Bytes)
    (o1 o2 : List (String × String)) (d : DirFS) (intr : Option Nat)
    (h1 : fs path = none) (h2 : fs p2 = some data)
    (h3 : d.isDir = true) (h4 : (d.jpgs ++ d.pngs).length ≠ 0) :
    display_image fs path o1 =
      ⟨"", "Error: Image file not found: " ++ path ++ "\n", none⟩
    ∧ ((display_image fs path o1).seq (display_image fs p2 o2)).out =
        imageEscape data o2
    ∧ (runMain d intr).2 = 0 := by
  refine ⟨?_, ?_, runMain_exit_zero d intr h3 h4⟩
  · simp [display_image, pyIsFile, h1, prErr]
  · rw [seq_out_none _ (by simp)]
    simp [display_image, pyIsFile, h1, h2, prErr, wr]

/-- Witness for claim C10: a missing first image, a present second image,
and the stale directory whose phases all fail to reopen their image. -/
theorem missing_image_not_fatal_witness :
    display_image fsTen "missing.png" [] =
      ⟨"", "Error: Image file not found: " ++ "missing.png" ++ "\n", none⟩
    ∧ ((display_image fsTen "missing.png" []).seq
        (display_image fsTen "img.png" [])).out =
        imageEscape [0, 1, 2, 3, 4, 5, 6, 7, 8, 9] []
    ∧ (runMain staleDir none).2 = 0 :=
  missing_image_not_fatal fsTen "missing.png" "img.png"
    [0, 1, 2, 3, 4, 5, 6, 7, 8, 9] [] [] staleDir none
    (by decide) (by decide) rfl (by decide)

end GT
